import Mathlib

/-!
Verification of the Simple Notes backend
(`src/notes_backend/src/api/main.py`).

The service is a FastAPI application holding notes in an in-memory dict
`NOTES_STORE : Dict[UUID, Note]`.  This file gives a shallow embedding of
its data model, its pydantic validation, and its five CRUD handlers, and
proves the behavioural properties stated about them.

Modelling conventions:
* A `UUID` key is modelled as a `Nat` (an opaque identifier); the string
  form of a UUID, as it appears in a URL path, is parsed by `pythonUUID`
  below, an embedding of CPython's `uuid.UUID(<str>)` constructor.
* The dict is modelled as an association list in insertion order, which is
  exactly the observable behaviour of a Python dict: assignment to a fresh
  key appends, assignment to a present key replaces in place, `del`
  removes the entry.  Reachable dicts never hold a duplicate key.
* `uuid4()` is modelled as an explicit input (`gen_id`) to the create
  route, so that properties can quantify over the generated id.
* JSON body fields are modelled by `Option JsonVal`: `none` is an absent
  field, `JsonVal.jnull` an explicit JSON `null`, `JsonVal.jstr s` a JSON
  string, and `JsonVal.jnonstr` any other JSON value (number, array, ...),
  which pydantic rejects for a `str` / `Optional[str]` field.
* FastAPI validates the request body and the typed path parameters before
  the handler body runs; a failure produces HTTP 422 and the handler (and
  hence the store) is never touched.  The route-level functions
  (`post_notes`, `put_note`, `get_note_route`) embed that staging.
-/

set_option autoImplicit false

namespace NotesApp

/-! ## Python string primitives -/

/-- Python `str.isspace` on the ASCII whitespace characters; `str.strip()`
with no argument removes exactly these (the further Unicode whitespace
code points are irrelevant to this development). -/
def pyIsSpace (c : Char) : Bool :=
  c = ' ' || c = '\t' || c = '\n' || c = '\r' || c = '\x0b' || c = '\x0c'

/-- Python `v.strip()`: remove leading and trailing whitespace. -/
def pyStrip (s : String) : String :=
  ⟨((s.data.dropWhile pyIsSpace).reverse.dropWhile pyIsSpace).reverse⟩

/-- Remove every occurrence of the character sequence `pat` from `l`,
scanning left to right: Python `str.replace(pat, '')`.  Structural
recursion on an explicit fuel (initialised to `l.length`, which the scan
never exceeds) keeps the definition kernel-reducible. -/
def removeSeqAux (pat : List Char) : Nat → List Char → List Char
  | _, [] => []
  | 0, l => l
  | fuel + 1, c :: rest =>
    if pat.isPrefixOf (c :: rest) ∧ 0 < pat.length then
      removeSeqAux pat fuel (List.drop (pat.length - 1) rest)
    else
      c :: removeSeqAux pat fuel rest

/-- Python `str.replace(pat, '')`. -/
def removeSeq (pat : List Char) (l : List Char) : List Char :=
  removeSeqAux pat l.length l

/-- Value of a hexadecimal digit, if `c` is one. -/
def hexDigit (c : Char) : Option Nat :=
  if '0' ≤ c ∧ c ≤ '9' then some (c.toNat - '0'.toNat)
  else if 'a' ≤ c ∧ c ≤ 'f' then some (c.toNat - 'a'.toNat + 10)
  else if 'A' ≤ c ∧ c ≤ 'F' then some (c.toNat - 'A'.toNat + 10)
  else none

/-- Python `int(<hex digits>, 16)` on an already-sanitised digit list. -/
def hexToNat : List Char → Option Nat
  | [] => some 0
  | c :: rest =>
    match hexDigit c, hexToNat rest with
    | some d, some n => some (d * 16 ^ rest.length + n)
    | _, _ => none

/-- CPython `uuid.UUID(<str>)`, the parser behind the `note_id: UUID`
path-parameter annotation: drop `urn:` and `uuid:` markers, strip braces,
remove hyphens, and require exactly 32 hexadecimal digits. -/
def pythonUUID (s : String) : Option Nat :=
  let h1 := removeSeq "uuid:".data (removeSeq "urn:".data s.data)
  let h2 := ((h1.dropWhile (fun c => c = '{' ∨ c = '}')).reverse.dropWhile
    (fun c => c = '{' ∨ c = '}')).reverse
  let h3 := h2.filter (fun c => ¬ (c = '-'))
  if h3.length = 32 then hexToNat h3 else none

/-! ## JSON bodies -/

/-- A JSON value supplied for a body field: an explicit `null`, a string,
or any other JSON value (which pydantic rejects for these fields). -/
inductive JsonVal where
  | jnull
  | jstr (s : String)
  | jnonstr
  deriving DecidableEq

/-- A raw JSON request body for the notes routes; `none` means the field
is absent from the body (pydantic: not in `model_fields_set`). -/
structure RawBody where
  title : Option JsonVal
  content : Option JsonVal
  deriving DecidableEq

/-! ## Pydantic models and validators -/

/-- `NoteBase.not_empty` (main.py lines 17-24): reject a value that is
empty after trimming, otherwise return the trimmed value.  `none` models
the validator raising `ValueError`. -/
def not_empty (v : String) : Option String :=
  if pyStrip v = "" then none else some (pyStrip v)

/-- `NoteUpdate.not_empty_when_present` (main.py lines 40-49): `None`
passes through untouched; a string is trimmed and must be non-empty. -/
def not_empty_when_present : Option String → Option (Option String)
  | none => some none
  | some s => (not_empty s).map some

/-- A validated `NoteCreate` payload: both fields required, already
trimmed by `not_empty`. -/
structure NoteCreate where
  title : String
  content : String
  deriving DecidableEq

/-- A validated `NoteUpdate` payload.  The outer `Option` records whether
the field was present in the body (`model_fields_set`); the inner
`Option String` is the validated value, which is `none` exactly when the
body carried an explicit JSON `null`. -/
structure NoteUpdate where
  title : Option (Option String)
  content : Option (Option String)
  deriving DecidableEq

/-- The stored `Note` model.  `title` and `content` are declared `str` in
the source, but `model_copy(update=...)` assigns without validation, so at
runtime the attributes can hold `None`; the embedding therefore gives them
type `Option String`, with `some` the string case. -/
structure Note where
  id : Nat
  title : Option String
  content : Option String
  deriving DecidableEq

/-- Pydantic validation of one `NoteCreate` field (`title: str` required):
absent, `null`, and non-string values are type errors; strings then pass
through `not_empty`. -/
def parseCreateField : Option JsonVal → Option String
  | some (JsonVal.jstr s) => not_empty s
  | _ => none

/-- Pydantic validation of a `NoteCreate` body; `none` models a 422
validation failure. -/
def parseCreate (b : RawBody) : Option NoteCreate :=
  match parseCreateField b.title, parseCreateField b.content with
  | some t, some c => some { title := t, content := c }
  | _, _ => none

/-- Pydantic validation of one `NoteUpdate` field (`Optional[str]`): an
absent field stays unset; `null` and strings go through
`not_empty_when_present`; a non-string value is a type error. -/
def parseUpdateField : Option JsonVal → Option (Option (Option String))
  | none => some none
  | some JsonVal.jnull => (not_empty_when_present none).map some
  | some (JsonVal.jstr s) => (not_empty_when_present (some s)).map some
  | some JsonVal.jnonstr => none

/-- Pydantic validation of a `NoteUpdate` body; `none` models a 422
validation failure. -/
def parseUpdate (b : RawBody) : Option NoteUpdate :=
  match parseUpdateField b.title, parseUpdateField b.content with
  | some t, some c => some { title := t, content := c }
  | _, _ => none

/-! ## The in-memory store -/

/-- `NOTES_STORE : Dict[UUID, Note]`, as an association list in insertion
order. -/
abbrev Store := List (Nat × Note)

/-- `NOTES_STORE.get(k)` — first entry with key `k` (keys of a reachable
dict are pairwise distinct). -/
def dictGet : Store → Nat → Option Note
  | [], _ => none
  | p :: rest, k => if p.1 = k then some p.2 else dictGet rest k

/-- `NOTES_STORE[k] = v` — replace in place if `k` is present, append
otherwise, exactly the insertion-order behaviour of dict assignment. -/
def dictSet : Store → Nat → Note → Store
  | [], k, v => [(k, v)]
  | p :: rest, k, v => if p.1 = k then (k, v) :: rest else p :: dictSet rest k v

/-- `del NOTES_STORE[k]` — drop the entry (entries) with key `k`. -/
def dictDel : Store → Nat → Store
  | [], _ => []
  | p :: rest, k => if p.1 = k then dictDel rest k else p :: dictDel rest k

/-! ## Handlers (main.py lines 100-224) -/

/-- HTTP responses the notes routes can produce. -/
inductive Response where
  | ok200 (note : Note)
  | created201 (note : Note)
  | noContent204
  | notFound404 (detail : String)
  | validationError422
  deriving DecidableEq

/-- `list_notes` (lines 100-107): `list(NOTES_STORE.values())`. -/
def list_notes (store : Store) : List Note :=
  store.map (fun p => p.2)

/-- `create_note` (lines 119-132) after body validation: build the note
from the generated id and the validated payload, store it, return 201. -/
def create_note (store : Store) (note_id : Nat) (payload : NoteCreate) :
    Store × Response :=
  let note : Note :=
    { id := note_id, title := some payload.title, content := some payload.content }
  (dictSet store note_id note, Response.created201 note)

/-- `get_note` (lines 143-161): 404 when absent, else the note.  (A
pydantic model is always truthy, so `if not note` is exactly the
`None` test.) -/
def get_note (store : Store) (note_id : Nat) : Response :=
  match dictGet store note_id with
  | none => Response.notFound404 "Note not found"
  | some note => Response.ok200 note

/-- `existing.model_copy(update=payload.model_dump(exclude_unset=True))`
(line 193): every field present in the body — including one explicitly set
to `null` — overwrites the stored field, with no re-validation. -/
def merge_update (existing : Note) (payload : NoteUpdate) : Note :=
  { existing with
    title := payload.title.getD existing.title
    content := payload.content.getD existing.content }

/-- `update_note` (lines 172-195) after body validation: 404 when the id
is absent, else merge and store. -/
def update_note (store : Store) (note_id : Nat) (payload : NoteUpdate) :
    Store × Response :=
  match dictGet store note_id with
  | none => (store, Response.notFound404 "Note not found")
  | some existing =>
    let updated := merge_update existing payload
    (dictSet store note_id updated, Response.ok200 updated)

/-- `delete_note` (lines 206-224): 404 when the id is absent, else remove
the entry and return 204 with no body. -/
def delete_note (store : Store) (note_id : Nat) : Store × Response :=
  if (dictGet store note_id).isSome then
    (dictDel store note_id, Response.noContent204)
  else
    (store, Response.notFound404 "Note not found")

/-! ## Routes: FastAPI validation staged before the handlers -/

/-- `POST /notes`: FastAPI validates the body as `NoteCreate` first; on
failure the response is 422 and the handler never runs. -/
def post_notes (store : Store) (gen_id : Nat) (body : RawBody) :
    Store × Response :=
  match parseCreate body with
  | none => (store, Response.validationError422)
  | some payload => create_note store gen_id payload

/-- `PUT /notes/{note_id}`: FastAPI validates the body as `NoteUpdate`
first; on failure the response is 422 and the handler never runs. -/
def put_note (store : Store) (note_id : Nat) (body : RawBody) :
    Store × Response :=
  match parseUpdate body with
  | none => (store, Response.validationError422)
  | some payload => update_note store note_id payload

/-- `GET /notes/{note_id}` at route level: the `note_id: UUID` path
parameter is parsed before the handler runs; a malformed UUID is a
request-validation failure, answered with HTTP 422, and the store is never
consulted. -/
def get_note_route (store : Store) (raw_id : String) : Response :=
  match pythonUUID raw_id with
  | none => Response.validationError422
  | some note_id => get_note store note_id

/-! ## Request sequences and the store invariant -/

/-- One mutating API request (the generated id of a create is made
explicit). -/
inductive Request where
  | post (gen_id : Nat) (body : RawBody)
  | put (note_id : Nat) (body : RawBody)
  | delete (note_id : Nat)

/-- The store after serving one request. -/
def stepStore (store : Store) : Request → Store
  | Request.post gen_id body => (post_notes store gen_id body).1
  | Request.put note_id body => (put_note store note_id body).1
  | Request.delete note_id => (delete_note store note_id).1

/-- The store reached from the empty store by a request sequence. -/
def runRequests (reqs : List Request) : Store :=
  reqs.foldl stepStore []

/-- The spec's note invariant: both fields are strings that are non-empty
and carry no leading or trailing whitespace. -/
def noteWF (n : Note) : Bool :=
  match n.title, n.content with
  | some t, some c => !(t == "") && pyStrip t == t && !(c == "") && pyStrip c == c
  | _, _ => false

/-- The spec's store invariant, checked over every stored note. -/
def storeWF (store : Store) : Bool :=
  store.all (fun p => noteWF p.2)

/-! ## Bulk creation (for the listing property) -/

/-- The note stored by a successful create with generated id `r.1`, title
`r.2.1` and content `r.2.2`. -/
def mkStoredNote (r : Nat × String × String) : Note :=
  { id := r.1, title := some (pyStrip r.2.1), content := some (pyStrip r.2.2) }

/-- Serve one create request out of a `(gen_id, title, content)` triple. -/
def createStep (store : Store) (r : Nat × String × String) : Store :=
  (post_notes store r.1
    { title := some (JsonVal.jstr r.2.1), content := some (JsonVal.jstr r.2.2) }).1

/-- The store after creating the given notes, in order, from empty. -/
def createMany (reqs : List (Nat × String × String)) : Store :=
  reqs.foldl createStep []

/-- Request sequence of the invariant-violation run: create a note, then
update it with a body whose `title` is an explicit JSON `null`. -/
def nullTitleRun : List Request :=
  [Request.post 0 { title := some (JsonVal.jstr "A"), content := some (JsonVal.jstr "B") },
   Request.put 0 { title := some JsonVal.jnull, content := none }]

/-! ## Store lemmas -/

theorem dictGet_dictSet_self (s : Store) (k : Nat) (v : Note) :
    dictGet (dictSet s k v) k = some v := by
  induction s with
  | nil => simp [dictGet, dictSet]
  | cons p rest ih =>
    by_cases h : p.1 = k
    · simp [dictGet, dictSet, h]
    · simp [dictGet, dictSet, h, ih]

theorem dictGet_dictSet_ne (s : Store) (k k' : Nat) (v : Note) (h : k' ≠ k) :
    dictGet (dictSet s k v) k' = dictGet s k' := by
  have hk : ¬ (k = k') := fun hh => h hh.symm
  induction s with
  | nil => simp [dictGet, dictSet, hk]
  | cons p rest ih =>
    by_cases hp : p.1 = k
    · simp [dictGet, dictSet, hp, hk]
    · simp [dictGet, dictSet, hp, ih]

theorem dictSet_append_of_fresh (s : Store) (k : Nat) (v : Note)
    (h : dictGet s k = none) : dictSet s k v = s ++ [(k, v)] := by
  induction s with
  | nil => simp [dictSet]
  | cons p rest ih =>
    by_cases hp : p.1 = k
    · simp [dictGet, hp] at h
    · simp only [dictGet, if_neg hp] at h
      simp [dictSet, hp, ih h]

theorem dictSet_length_of_mem (s : Store) (k : Nat) (v : Note)
    (h : (dictGet s k).isSome) : (dictSet s k v).length = s.length := by
  induction s with
  | nil => simp [dictGet] at h
  | cons p rest ih =>
    by_cases hp : p.1 = k
    · simp [dictSet, hp]
    · simp only [dictGet, if_neg hp] at h
      simp [dictSet, hp, ih h]

theorem dictGet_append (s t : Store) (k : Nat) :
    dictGet (s ++ t) k =
      match dictGet s k with
      | some v => some v
      | none => dictGet t k := by
  induction s with
  | nil => simp [dictGet]
  | cons p rest ih =>
    by_cases hp : p.1 = k <;> simp [dictGet, hp, ih]

theorem dictGet_dictDel_self (s : Store) (k : Nat) :
    dictGet (dictDel s k) k = none := by
  induction s with
  | nil => simp [dictGet, dictDel]
  | cons p rest ih =>
    by_cases hp : p.1 = k <;> simp [dictGet, dictDel, hp, ih]

theorem dictGet_dictDel_ne (s : Store) (k k' : Nat) (h : k' ≠ k) :
    dictGet (dictDel s k) k' = dictGet s k' := by
  have hk : ¬ (k = k') := fun hh => h hh.symm
  induction s with
  | nil => simp [dictDel]
  | cons p rest ih =>
    by_cases hp : p.1 = k
    · simp [dictGet, dictDel, hp, hk, ih]
    · simp [dictGet, dictDel, hp, ih]

theorem dictDel_sublist (s : Store) (k : Nat) : (dictDel s k).Sublist s := by
  induction s with
  | nil => simp [dictDel]
  | cons p rest ih =>
    by_cases hp : p.1 = k
    · simp only [dictDel, if_pos hp]
      exact ih.cons p
    · simp only [dictDel, if_neg hp]
      exact ih.cons₂ p

/-! ## Validation lemmas -/

theorem parseCreate_strings (t c : String) (ht : pyStrip t ≠ "") (hc : pyStrip c ≠ "") :
    parseCreate { title := some (JsonVal.jstr t), content := some (JsonVal.jstr c) } =
      some { title := pyStrip t, content := pyStrip c } := by
  simp [parseCreate, parseCreateField, not_empty, ht, hc]

theorem parseUpdate_title_only (t : String) (ht : pyStrip t ≠ "") :
    parseUpdate { title := some (JsonVal.jstr t), content := none } =
      some { title := some (some (pyStrip t)), content := none } := by
  simp [parseUpdate, parseUpdateField, not_empty_when_present, not_empty, ht]

theorem parseUpdate_content_only (c : String) (hc : pyStrip c ≠ "") :
    parseUpdate { title := none, content := some (JsonVal.jstr c) } =
      some { title := none, content := some (some (pyStrip c)) } := by
  simp [parseUpdate, parseUpdateField, not_empty_when_present, not_empty, hc]

/-! ## Bulk-creation lemma -/

theorem createMany_go (reqs : List (Nat × String × String)) (st : Store)
    (hfresh : ∀ r ∈ reqs, dictGet st r.1 = none)
    (hids : (reqs.map (fun r => r.1)).Nodup)
    (hvalid : ∀ r ∈ reqs, pyStrip r.2.1 ≠ "" ∧ pyStrip r.2.2 ≠ "") :
    reqs.foldl createStep st = st ++ reqs.map (fun r => (r.1, mkStoredNote r)) := by
  induction reqs generalizing st with
  | nil => simp
  | cons r rest ih =>
    have hv := hvalid r (List.mem_cons_self r rest)
    have hf := hfresh r (List.mem_cons_self r rest)
    have hstep : createStep st r = st ++ [(r.1, mkStoredNote r)] := by
      simp only [createStep, post_notes, parseCreate_strings r.2.1 r.2.2 hv.1 hv.2]
      simp [create_note, mkStoredNote, dictSet_append_of_fresh st r.1 _ hf]
    have hnotin : r.1 ∉ rest.map (fun r' => r'.1) := by
      have hh := hids
      simp only [List.map_cons, List.nodup_cons] at hh
      exact hh.1
    have hfresh' : ∀ r' ∈ rest, dictGet (st ++ [(r.1, mkStoredNote r)]) r'.1 = none := by
      intro r' hr'
      rw [dictGet_append]
      have h1 : dictGet st r'.1 = none := hfresh r' (List.mem_cons_of_mem r hr')
      have h2 : ¬ (r.1 = r'.1) := by
        intro hEq
        exact hnotin (hEq ▸ List.mem_map_of_mem (fun x => x.1) hr')
      simp [h1, dictGet, h2]
    have hids' : (rest.map (fun r' => r'.1)).Nodup := by
      simp only [List.map_cons, List.nodup_cons] at hids
      exact hids.2
    have hvalid' : ∀ r' ∈ rest, pyStrip r'.2.1 ≠ "" ∧ pyStrip r'.2.2 ≠ "" :=
      fun r' hr' => hvalid r' (List.mem_cons_of_mem r hr')
    rw [List.foldl_cons, hstep, ih _ hfresh' hids' hvalid']
    simp

/-! ## Claim theorems -/

/-- C1: the claimed store invariant — every reachable store holds only
notes with non-empty, whitespace-trimmed title and content — fails on the
code: a PUT whose body carries an explicit JSON `null` title passes the
`not_empty_when_present` validator, is included by
`model_dump(exclude_unset=True)`, and is merged by `model_copy` without
re-validation, so the stored note ends up with no title at all. -/
theorem c1_null_title_reaches_store :
    runRequests nullTitleRun =
      [(0, { id := 0, title := none, content := some "B" })] ∧
    storeWF (runRequests nullTitleRun) = false := by
  decide

/-- C5 counterexample: on a malformed id the route answers with the
path-parameter validation error (HTTP 422), not with 404 "Note not found"
as claimed. -/
theorem c5_counterexample :
    get_note_route [] "not-a-uuid" = Response.validationError422 ∧
    get_note_route [] "not-a-uuid" ≠ Response.notFound404 "Note not found" := by
  decide

/-- C5 (amended): a path parameter that is not a well-formed UUID is
rejected by the path-parameter typing before any store access, and the
response is the HTTP 422 request-validation error. -/
theorem c5_malformed_uuid_rejected (store : Store) (raw_id : String)
    (h : pythonUUID raw_id = none) :
    get_note_route store raw_id = Response.validationError422 := by
  simp [get_note_route, h]

/-- C5 witness: the malformed id `"not-a-uuid"` against a one-note store. -/
theorem c5_malformed_uuid_rejected_witness :
    pythonUUID "not-a-uuid" = none ∧
    get_note_route [(5, { id := 5, title := some "A", content := some "B" })]
      "not-a-uuid" = Response.validationError422 :=
  ⟨by decide, c5_malformed_uuid_rejected _ _ (by decide)⟩

/-- C6: List completeness and order: creating notes from the empty store
(with pairwise distinct generated ids and valid bodies) makes `GET /notes`
return exactly the created notes, in creation order, each present exactly
once. -/
theorem c6_list_complete (reqs : List (Nat × String × String))
    (hids : (reqs.map (fun r => r.1)).Nodup)
    (hvalid : ∀ r ∈ reqs, pyStrip r.2.1 ≠ "" ∧ pyStrip r.2.2 ≠ "") :
    list_notes (createMany reqs) = reqs.map mkStoredNote ∧
    (list_notes (createMany reqs)).length = reqs.length ∧
    ∀ r ∈ reqs, (list_notes (createMany reqs)).count (mkStoredNote r) = 1 := by
  have hrun : createMany reqs = reqs.map (fun r => (r.1, mkStoredNote r)) := by
    have hh := createMany_go reqs [] (fun r _ => rfl) hids hvalid
    simpa [createMany] using hh
  have hlist : list_notes (createMany reqs) = reqs.map mkStoredNote := by
    rw [hrun]
    simp [list_notes, List.map_map, Function.comp]
  refine ⟨hlist, by rw [hlist]; simp, ?_⟩
  intro r hr
  rw [hlist]
  have hnd : (reqs.map mkStoredNote).Nodup := by
    have hmapid : (reqs.map mkStoredNote).map (fun n => n.id) =
        reqs.map (fun r => r.1) := by
      simp [List.map_map, Function.comp, mkStoredNote]
    exact List.Nodup.of_map (fun n => n.id) (by rw [hmapid]; exact hids)
  exact List.count_eq_one_of_mem hnd (List.mem_map_of_mem mkStoredNote hr)

/-- C6 witness: two creates from the empty store. -/
theorem c6_list_complete_witness :
    (([(10, "A", "B"), (11, "C", "D")] :
        List (Nat × String × String)).map (fun r => r.1)).Nodup ∧
    (∀ r ∈ ([(10, "A", "B"), (11, "C", "D")] : List (Nat × String × String)),
      pyStrip r.2.1 ≠ "" ∧ pyStrip r.2.2 ≠ "") ∧
    list_notes (createMany [(10, "A", "B"), (11, "C", "D")]) =
      [{ id := 10, title := some "A", content := some "B" },
       { id := 11, title := some "C", content := some "D" }] :=
  ⟨by decide, by decide,
   ((c6_list_complete [(10, "A", "B"), (11, "C", "D")]
      (by decide) (by decide)).1).trans (by decide)⟩

/-- C8: Trimming semantics: a create or update that supplies a string
which is non-empty after trimming stores (and returns) the trimmed string,
and the untrimmed original is not what gets stored. -/
theorem c8_trimming (store : Store) (gen_id note_id : Nat) (t c u : String)
    (existing : Note) (hmem : dictGet store note_id = some existing)
    (ht : pyStrip t ≠ "") (hc : pyStrip c ≠ "") (hu : pyStrip u ≠ "") :
    dictGet ((post_notes store gen_id
        { title := some (JsonVal.jstr t), content := some (JsonVal.jstr c) }).1) gen_id =
      some { id := gen_id, title := some (pyStrip t), content := some (pyStrip c) } ∧
    (post_notes store gen_id
        { title := some (JsonVal.jstr t), content := some (JsonVal.jstr c) }).2 =
      Response.created201
        { id := gen_id, title := some (pyStrip t), content := some (pyStrip c) } ∧
    dictGet ((put_note store note_id
        { title := some (JsonVal.jstr u), content := none }).1) note_id =
      some { existing with title := some (pyStrip u) } ∧
    (pyStrip t ≠ t →
      dictGet ((post_notes store gen_id
          { title := some (JsonVal.jstr t), content := some (JsonVal.jstr c) }).1) gen_id ≠
        some { id := gen_id, title := some t, content := some (pyStrip c) }) := by
  have hpost : (post_notes store gen_id
      { title := some (JsonVal.jstr t), content := some (JsonVal.jstr c) }).1 =
      dictSet store gen_id
        { id := gen_id, title := some (pyStrip t), content := some (pyStrip c) } := by
    simp only [post_notes, parseCreate_strings t c ht hc]
    simp [create_note]
  have hput : (put_note store note_id
      { title := some (JsonVal.jstr u), content := none }).1 =
      dictSet store note_id { existing with title := some (pyStrip u) } := by
    simp only [put_note, parseUpdate_title_only u hu]
    simp [update_note, hmem, merge_update]
  refine ⟨by rw [hpost]; exact dictGet_dictSet_self _ _ _, ?_, ?_, ?_⟩
  · simp only [post_notes, parseCreate_strings t c ht hc]
    simp [create_note]
  · rw [hput]
    exact dictGet_dictSet_self _ _ _
  · intro hne hbad
    rw [hpost, dictGet_dictSet_self] at hbad
    have hfields := Option.some.inj hbad
    have htitle : some (pyStrip t) = some t := congrArg Note.title hfields
    exact hne (Option.some.inj htitle)

/-- C8 witness: creating with the untrimmed title `"  A "` stores `"A"`. -/
theorem c8_trimming_witness :
    dictGet [(5, { id := 5, title := some "A", content := some "B" })] 5 =
      some { id := 5, title := some "A", content := some "B" } ∧
    pyStrip "  A " ≠ "" ∧ pyStrip "  A " ≠ "  A " ∧
    dictGet ((post_notes [(5, { id := 5, title := some "A", content := some "B" })] 9
        { title := some (JsonVal.jstr "  A "), content := some (JsonVal.jstr "B") }).1) 9 =
      some { id := 9, title := some "A", content := some "B" } :=
  ⟨by decide, by decide, by decide,
   ((c8_trimming [(5, { id := 5, title := some "A", content := some "B" })] 9 5
      "  A " "B" " U " { id := 5, title := some "A", content := some "B" }
      (by decide) (by decide) (by decide) (by decide)).1).trans (by decide)⟩

/-- C2: Partial-update frame: for a note present in the store, a PUT whose
valid body supplies only `title` changes the stored title to the supplied
(trimmed) value and leaves the content at its prior value; supplying only
`content` leaves the title unchanged; a body with both fields omitted
changes nothing; in each case the returned note equals the merged stored
note. -/
theorem c2_partial_update_frame (store : Store) (note_id : Nat) (existing : Note)
    (t c : String) (hmem : dictGet store note_id = some existing)
    (ht : pyStrip t ≠ "") (hc : pyStrip c ≠ "") :
    (put_note store note_id { title := some (JsonVal.jstr t), content := none } =
        (dictSet store note_id { existing with title := some (pyStrip t) },
         Response.ok200 { existing with title := some (pyStrip t) }) ∧
      ({ existing with title := some (pyStrip t) } : Note).content = existing.content ∧
      dictGet (dictSet store note_id { existing with title := some (pyStrip t) }) note_id =
        some { existing with title := some (pyStrip t) }) ∧
    (put_note store note_id { title := none, content := some (JsonVal.jstr c) } =
        (dictSet store note_id { existing with content := some (pyStrip c) },
         Response.ok200 { existing with content := some (pyStrip c) }) ∧
      ({ existing with content := some (pyStrip c) } : Note).title = existing.title ∧
      dictGet (dictSet store note_id { existing with content := some (pyStrip c) }) note_id =
        some { existing with content := some (pyStrip c) }) ∧
    put_note store note_id { title := none, content := none } =
      (dictSet store note_id existing, Response.ok200 existing) := by
  refine ⟨⟨?_, rfl, dictGet_dictSet_self _ _ _⟩,
    ⟨?_, rfl, dictGet_dictSet_self _ _ _⟩, ?_⟩
  · simp only [put_note, parseUpdate_title_only t ht]
    simp [update_note, hmem, merge_update]
  · simp only [put_note, parseUpdate_content_only c hc]
    simp [update_note, hmem, merge_update]
  · have hb : parseUpdate { title := none, content := none } =
        some { title := none, content := none } := rfl
    simp only [put_note, hb]
    simp [update_note, hmem, merge_update]

/-- C2 witness: the frame property evaluated on a one-note store. -/
theorem c2_partial_update_frame_witness :
    dictGet [(5, { id := 5, title := some "A", content := some "B" })] 5 =
      some { id := 5, title := some "A", content := some "B" } ∧
    pyStrip " T " ≠ "" ∧ pyStrip "C" ≠ "" ∧
    put_note [(5, { id := 5, title := some "A", content := some "B" })] 5
        { title := some (JsonVal.jstr " T "), content := none } =
      ([(5, { id := 5, title := some "T", content := some "B" })],
       Response.ok200 { id := 5, title := some "T", content := some "B" }) :=
  ⟨by decide, by decide, by decide,
   ((c2_partial_update_frame
      [(5, { id := 5, title := some "A", content := some "B" })] 5
      { id := 5, title := some "A", content := some "B" } " T " "C"
      (by decide) (by decide) (by decide)).1.1).trans (by decide)⟩

/-- C3: Validation atomicity: a POST or PUT whose body fails pydantic
validation is answered with HTTP 422 and the store is returned exactly
unchanged. -/
theorem c3_validation_atomicity (store : Store) (gen_id note_id : Nat)
    (cbody ubody : RawBody)
    (hcb : parseCreate cbody = none) (hub : parseUpdate ubody = none) :
    post_notes store gen_id cbody = (store, Response.validationError422) ∧
    put_note store note_id ubody = (store, Response.validationError422) := by
  constructor
  · simp [post_notes, hcb]
  · simp [put_note, hub]

/-- C3 witness: POST missing `content`, and PUT with whitespace-only
`title`, on a one-note store. -/
theorem c3_validation_atomicity_witness :
    parseCreate { title := some (JsonVal.jstr "A"), content := none } = none ∧
    parseUpdate { title := some (JsonVal.jstr "  "), content := none } = none ∧
    (post_notes [(5, { id := 5, title := some "A", content := some "B" })] 0
        { title := some (JsonVal.jstr "A"), content := none } =
      ([(5, { id := 5, title := some "A", content := some "B" })],
       Response.validationError422) ∧
     put_note [(5, { id := 5, title := some "A", content := some "B" })] 5
        { title := some (JsonVal.jstr "  "), content := none } =
      ([(5, { id := 5, title := some "A", content := some "B" })],
       Response.validationError422)) :=
  ⟨by decide, by decide,
   c3_validation_atomicity [(5, { id := 5, title := some "A", content := some "B" })]
     0 5 _ _ (by decide) (by decide)⟩

/-- C4: Raises-iff for absence: GET, PUT (with a valid body) and DELETE on
an id answer 404 "Note not found" exactly when the id is absent from the
store; on that failure the store is unchanged; when the id is present they
answer 200, 200 and 204 respectively. -/
theorem c4_not_found_iff (store : Store) (note_id : Nat) (body : RawBody)
    (payload : NoteUpdate) (hbody : parseUpdate body = some payload) :
    (get_note store note_id = Response.notFound404 "Note not found" ↔
      dictGet store note_id = none) ∧
    ((put_note store note_id body).2 = Response.notFound404 "Note not found" ↔
      dictGet store note_id = none) ∧
    ((delete_note store note_id).2 = Response.notFound404 "Note not found" ↔
      dictGet store note_id = none) ∧
    (dictGet store note_id = none →
      (put_note store note_id body).1 = store ∧ (delete_note store note_id).1 = store) ∧
    ∀ n, dictGet store note_id = some n →
      get_note store note_id = Response.ok200 n ∧
      (put_note store note_id body).2 = Response.ok200 (merge_update n payload) ∧
      (delete_note store note_id).2 = Response.noContent204 := by
  cases hmem : dictGet store note_id with
  | none => simp [get_note, put_note, update_note, delete_note, hbody, hmem]
  | some n => simp [get_note, put_note, update_note, delete_note, hbody, hmem]

/-- C4 witness: the absence behaviour on the empty store at id 0 with the
empty (hence valid) update body. -/
theorem c4_not_found_iff_witness :
    parseUpdate { title := none, content := none } =
      some { title := none, content := none } ∧
    ((get_note [] 0 = Response.notFound404 "Note not found" ↔ dictGet [] 0 = none) ∧
     ((put_note [] 0 { title := none, content := none }).2 =
        Response.notFound404 "Note not found" ↔ dictGet [] 0 = none) ∧
     ((delete_note [] 0).2 = Response.notFound404 "Note not found" ↔
        dictGet [] 0 = none) ∧
     (dictGet [] 0 = none →
       (put_note [] 0 { title := none, content := none }).1 = [] ∧
       (delete_note [] 0).1 = []) ∧
     ∀ n, dictGet [] 0 = some n →
       get_note [] 0 = Response.ok200 n ∧
       (put_note [] 0 { title := none, content := none }).2 =
         Response.ok200 (merge_update n { title := none, content := none }) ∧
       (delete_note [] 0).2 = Response.noContent204) :=
  ⟨by decide, c4_not_found_iff [] 0 _ _ (by decide)⟩

/-- C7: Create/get round trip: a POST with a valid body stores and returns
(with HTTP 201) the note built from the generated id and the trimmed field
values, and an immediately following GET on that id answers 200 with the
same note. -/
theorem c7_create_get_roundtrip (store : Store) (gen_id : Nat) (t c : String)
    (ht : pyStrip t ≠ "") (hc : pyStrip c ≠ "") :
    post_notes store gen_id
        { title := some (JsonVal.jstr t), content := some (JsonVal.jstr c) } =
      (dictSet store gen_id
         { id := gen_id, title := some (pyStrip t), content := some (pyStrip c) },
       Response.created201
         { id := gen_id, title := some (pyStrip t), content := some (pyStrip c) }) ∧
    get_note
        (dictSet store gen_id
          { id := gen_id, title := some (pyStrip t), content := some (pyStrip c) })
        gen_id =
      Response.ok200
        { id := gen_id, title := some (pyStrip t), content := some (pyStrip c) } := by
  constructor
  · simp only [post_notes, parseCreate_strings t c ht hc]
    simp [create_note]
  · simp [get_note, dictGet_dictSet_self]

/-- C7 witness: creating `title="A"`, `content="B"` at id 7 on the empty
store and fetching it back. -/
theorem c7_create_get_roundtrip_witness :
    pyStrip "A" ≠ "" ∧ pyStrip "B" ≠ "" ∧
    (post_notes [] 7 { title := some (JsonVal.jstr "A"), content := some (JsonVal.jstr "B") } =
       (dictSet [] 7 { id := 7, title := some (pyStrip "A"), content := some (pyStrip "B") },
        Response.created201
          { id := 7, title := some (pyStrip "A"), content := some (pyStrip "B") }) ∧
     get_note
        (dictSet [] 7 { id := 7, title := some (pyStrip "A"), content := some (pyStrip "B") }) 7 =
       Response.ok200
         { id := 7, title := some (pyStrip "A"), content := some (pyStrip "B") }) :=
  ⟨by decide, by decide, c7_create_get_roundtrip [] 7 "A" "B" (by decide) (by decide)⟩

/-- C9: Implicit — create performs no existence check: when the generated
id already keys a stored note, POST still succeeds with 201, the old note
is overwritten in place, and the store size does not grow. -/
theorem c9_create_overwrites (store : Store) (gen_id : Nat) (old : Note)
    (t c : String) (hmem : dictGet store gen_id = some old)
    (ht : pyStrip t ≠ "") (hc : pyStrip c ≠ "") :
    post_notes store gen_id
        { title := some (JsonVal.jstr t), content := some (JsonVal.jstr c) } =
      (dictSet store gen_id
         { id := gen_id, title := some (pyStrip t), content := some (pyStrip c) },
       Response.created201
         { id := gen_id, title := some (pyStrip t), content := some (pyStrip c) }) ∧
    dictGet
        (dictSet store gen_id
          { id := gen_id, title := some (pyStrip t), content := some (pyStrip c) })
        gen_id =
      some { id := gen_id, title := some (pyStrip t), content := some (pyStrip c) } ∧
    (dictSet store gen_id
        { id := gen_id, title := some (pyStrip t), content := some (pyStrip c) }).length =
      store.length := by
  refine ⟨?_, dictGet_dictSet_self _ _ _, ?_⟩
  · simp only [post_notes, parseCreate_strings t c ht hc]
    simp [create_note]
  · exact dictSet_length_of_mem store gen_id _ (by rw [hmem]; rfl)

/-- C9 witness: the colliding create on a one-note store. -/
theorem c9_create_overwrites_witness :
    dictGet [(3, { id := 3, title := some "A", content := some "B" })] 3 =
      some { id := 3, title := some "A", content := some "B" } ∧
    (dictSet [(3, { id := 3, title := some "A", content := some "B" })] 3
        { id := 3, title := some (pyStrip "X"), content := some (pyStrip "Y") }).length =
      ([(3, { id := 3, title := some "A", content := some "B" })] : Store).length :=
  ⟨by decide,
   (c9_create_overwrites [(3, { id := 3, title := some "A", content := some "B" })] 3
     { id := 3, title := some "A", content := some "B" } "X" "Y"
     (by decide) (by decide) (by decide)).2.2⟩

/-- C10: Implicit — delete frame: deleting a present id removes exactly
that entry (and answers 204): afterwards that id is absent, every other id
still maps to the same note, and the listing of the remaining notes is a
sublist (hence in the same relative order) of the previous listing. -/
theorem c10_delete_frame (store : Store) (d : Nat) (n : Note)
    (hmem : dictGet store d = some n) :
    delete_note store d = (dictDel store d, Response.noContent204) ∧
    dictGet (dictDel store d) d = none ∧
    (∀ k, k ≠ d → dictGet (dictDel store d) k = dictGet store k) ∧
    (list_notes (dictDel store d)).Sublist (list_notes store) := by
  refine ⟨?_, dictGet_dictDel_self _ _,
    fun k hk => dictGet_dictDel_ne _ _ _ hk, ?_⟩
  · simp [delete_note, hmem]
  · simpa [list_notes] using (dictDel_sublist store d).map (fun p => p.2)

/-- C10 witness: deleting the first of two stored notes. -/
theorem c10_delete_frame_witness :
    dictGet [(1, { id := 1, title := some "A", content := some "B" }),
             (2, { id := 2, title := some "C", content := some "D" })] 1 =
      some { id := 1, title := some "A", content := some "B" } ∧
    delete_note [(1, { id := 1, title := some "A", content := some "B" }),
                 (2, { id := 2, title := some "C", content := some "D" })] 1 =
      ([(2, { id := 2, title := some "C", content := some "D" })],
       Response.noContent204) :=
  ⟨by decide,
   ((c10_delete_frame
      [(1, { id := 1, title := some "A", content := some "B" }),
       (2, { id := 2, title := some "C", content := some "D" })] 1
      { id := 1, title := some "A", content := some "B" } (by decide)).1).trans (by decide)⟩

end NotesApp
